import Mathlib

/-!
Verification model of the Falcon (Wrike) <-> HubSpot sync engine
(src/sync_engine.py, src/database.py).

The definitions below are a shallow embedding of the Python source:
pure helper functions are translated directly; the stateful sync
routines are translated into explicit state passing over a database
state (the company_id_map / sync_state tables of src/database.py), a
HubSpot remote state, and a trace of gateway calls.  Time is a Nat
(or Int for watermark arithmetic); HTTP behaviour of the two
rate-limited clients is modelled as a function from attempt index to
the response received on that attempt.
-/

namespace FalconHub

/-- Python `s.strip()`: drop whitespace from both ends.  Implemented
structurally on the character list so that proofs can evaluate it. -/
def pyStrip (s : String) : String :=
  ⟨((s.data.dropWhile Char.isWhitespace).reverse.dropWhile
      Char.isWhitespace).reverse⟩

/-- Python `s.startswith(pre)`, computed on the character lists. -/
def strStartsWith (s pre : String) : Bool :=
  pre.data.isPrefixOf s.data

/-- Python slicing `s[n:]` (by characters). -/
def strDrop (s : String) (n : Nat) : String :=
  ⟨s.data.drop n⟩

/-- Whether `pat` occurs at some position of `cs`. -/
def containsAt : List Char → List Char → Bool
  | [], pat => pat.isEmpty
  | c :: t, pat => pat.isPrefixOf (c :: t) || containsAt t pat

/-- Python `pat in s` substring test, as used by the guard
`if "AdminCard" not in wrike_task_title` (src/sync_engine.py:1115). -/
def pyContains (s pat : String) : Bool :=
  containsAt s.data pat.data

/-- `safe_str` (src/sync_engine.py:717-721): None becomes "", otherwise
the string is whitespace-trimmed. -/
def safe_str (x : Option String) : String :=
  match x with
  | none => ""
  | some s => pyStrip s

/-- A Wrike custom-field entry, an element of a task's `customFields`
list: an id and a possibly-null value. -/
structure CustomField where
  id : String
  value : Option String
deriving DecidableEq, Repr

/-- `wrike_cf_get` (src/sync_engine.py:698-706): first custom field with
the given id decides the result; a null value yields None. -/
def wrike_cf_get (cfs : List CustomField) (cfId : String) : Option String :=
  match cfs.find? (fun cf => cf.id == cfId) with
  | some cf => cf.value
  | none => none

/-- `clean_company_name_for_hubspot` (src/sync_engine.py:723-737):
strips one leading marker variant of length 10 ("AdminCard_",
"AdminCard ", "AdminCard-"), then trims whitespace. -/
def clean_company_name_for_hubspot (name : String) : String :=
  if name = "" then ""
  else
    let n :=
      if strStartsWith name "AdminCard_" then strDrop name 10
      else if strStartsWith name "AdminCard " then strDrop name 10
      else if strStartsWith name "AdminCard-" then strDrop name 10
      else name
    pyStrip n

/-- Association-list lookup, modelling a Python dict read `tbl[k]`. -/
def lookupStr (tbl : List (String × String)) (k : String) : Option String :=
  (tbl.find? (fun e => e.fst == k)).map (fun e => e.snd)

/-- Python `tbl.get(k, dflt)`, as in
`self.tier_to_priority.get(account_tier, account_tier)`
(src/sync_engine.py:1134). -/
def pyDictGet (tbl : List (String × String)) (k dflt : String) : String :=
  (lookupStr tbl k).getD dflt

/-! ## Rate-limited gateway retry loops -/

/-- What the remote end does on one attempt: an HTTP response with a
status code, or a network/connection error. -/
inductive HttpAttempt
  | status (code : Nat)
  | netError
deriving DecidableEq, Repr

/-- Outcome of a `_request_with_retry` call, carrying the total number
of attempts that were issued before termination. -/
inductive RetryOutcome
  | success (code : Nat) (attempts : Nat)
  | httpError (code : Nat) (attempts : Nat)
  | netFail (attempts : Nat)
  | exhausted
deriving DecidableEq, Repr

/-- `max_retries` of both clients (src/sync_engine.py:427,562). -/
def maxRetries : Nat := 10

/-- `EnhancedHubSpotClient._request_with_retry` (src/sync_engine.py:425-490),
with `fuel` the number of attempts remaining after the current one
(so `fuel = 0` is the test `attempt == max_retries - 1`).
On 429 the loop continues; a non-429 4xx hits `raise_for_status` and the
dedicated `except HTTPError: raise` clause propagates it at once; a 5xx
retries while attempts remain; network errors retry until the last
attempt.  Falling off the loop raises "Max retries exceeded". -/
def hubspotRetryAux (resp : Nat → HttpAttempt) : Nat → Nat → RetryOutcome
  | _, 0 => .exhausted
  | attempt, fuel + 1 =>
    match resp attempt with
    | .netError =>
      if fuel = 0 then .netFail (attempt + 1)
      else hubspotRetryAux resp (attempt + 1) fuel
    | .status code =>
      if code = 429 then hubspotRetryAux resp (attempt + 1) fuel
      else if 400 ≤ code ∧ code < 500 then .httpError code (attempt + 1)
      else if 500 ≤ code then
        if 0 < fuel then hubspotRetryAux resp (attempt + 1) fuel
        else .httpError code (attempt + 1)
      else .success code (attempt + 1)

/-- The HubSpot client's retry loop started at attempt 0. -/
def hubspot_request_with_retry (resp : Nat → HttpAttempt) : RetryOutcome :=
  hubspotRetryAux resp 0 maxRetries

/-- `EnhancedWrikeClient._request_with_retry` (src/sync_engine.py:560-606).
Unlike the HubSpot client it has no dedicated `except HTTPError` clause:
the error raised by `raise_for_status` for any 4xx/5xx is caught by the
generic `except RequestException` handler, which re-raises only on the
last attempt and otherwise sleeps and retries. -/
def wrikeRetryAux (resp : Nat → HttpAttempt) : Nat → Nat → RetryOutcome
  | _, 0 => .exhausted
  | attempt, fuel + 1 =>
    match resp attempt with
    | .netError =>
      if fuel = 0 then .netFail (attempt + 1)
      else wrikeRetryAux resp (attempt + 1) fuel
    | .status code =>
      if code = 429 then wrikeRetryAux resp (attempt + 1) fuel
      else if 400 ≤ code then
        if 500 ≤ code ∧ 0 < fuel then wrikeRetryAux resp (attempt + 1) fuel
        else if fuel = 0 then .httpError code (attempt + 1)
        else wrikeRetryAux resp (attempt + 1) fuel
      else .success code (attempt + 1)

/-- The Wrike client's retry loop started at attempt 0. -/
def wrike_request_with_retry (resp : Nat → HttpAttempt) : RetryOutcome :=
  wrikeRetryAux resp 0 maxRetries

/-! ## Identity Map and sync-state persistence (src/database.py) -/

/-- One row of the `company_id_map` table (src/database.py:73-84). -/
structure IdRow where
  wrike_company_id : String
  hubspot_company_id : String
  company_name : String
  sync_status : String
  last_synced : Nat
deriving DecidableEq, Repr

/-- The persistent store as the sync routines see it: the Identity Map
plus the `sync_state` watermark key-value table. -/
structure SyncDb where
  company_id_map : List IdRow
  sync_state : List (String × String)
deriving DecidableEq, Repr

/-- `EnhancedDB.get_hubspot_company_id` (src/database.py:597-602):
`SELECT hubspot_company_id FROM company_id_map WHERE wrike_company_id = ?
AND sync_status = 'active'`. -/
def get_hubspot_company_id (db : SyncDb) (w : String) : Option String :=
  (db.company_id_map.find?
    (fun r => r.wrike_company_id == w && r.sync_status == "active")).map
    (fun r => r.hubspot_company_id)

/-- `EnhancedDB.get_wrike_company_id_by_hubspot` (src/database.py:604-609). -/
def get_wrike_company_id_by_hubspot (db : SyncDb) (h : String) : Option String :=
  (db.company_id_map.find?
    (fun r => r.hubspot_company_id == h && r.sync_status == "active")).map
    (fun r => r.wrike_company_id)

/-- `EnhancedDB.upsert_company_mapping` (src/database.py:611-640): insert
keyed by `wrike_company_id`; on conflict overwrite the HubSpot id, name
and timestamps and force `sync_status = 'active'`. -/
def upsert_company_mapping (db : SyncDb) (now : Nat) (w h name : String) : SyncDb :=
  if db.company_id_map.any (fun r => r.wrike_company_id == w) then
    { db with company_id_map := db.company_id_map.map (fun r =>
        if r.wrike_company_id == w then
          { r with hubspot_company_id := h, company_name := name,
                   sync_status := "active", last_synced := now }
        else r) }
  else
    { db with company_id_map :=
        db.company_id_map ++ [⟨w, h, name, "active", now⟩] }

/-- `EnhancedDB.get_state` (src/database.py:576-578). -/
def get_state (db : SyncDb) (k : String) : Option String :=
  (db.sync_state.find? (fun e => e.fst == k)).map (fun e => e.snd)

/-- `EnhancedDB.set_state` (src/database.py:580-591): upsert on key. -/
def set_state (db : SyncDb) (k v : String) : SyncDb :=
  if db.sync_state.any (fun e => e.fst == k) then
    { db with sync_state :=
        db.sync_state.map (fun e => if e.fst == k then (k, v) else e) }
  else
    { db with sync_state := db.sync_state ++ [(k, v)] }

/-! ## HubSpot remote state and gateway calls -/

/-- A HubSpot company object: id plus property map (possibly-null
property values). -/
structure HubCompany where
  id : String
  props : List (String × Option String)
deriving DecidableEq, Repr

/-- Read one property of a company. -/
def hubPropGet (c : HubCompany) (p : String) : Option String :=
  match c.props.find? (fun e => e.fst == p) with
  | some e => e.snd
  | none => none

/-- Set one property, keeping the others. -/
def setProp (props : List (String × Option String)) (k : String)
    (v : Option String) : List (String × Option String) :=
  if props.any (fun e => e.fst == k) then
    props.map (fun e => if e.fst == k then (k, v) else e)
  else props ++ [(k, v)]

/-- Apply an update payload property by property (PATCH semantics). -/
def mergeProps (props updates : List (String × Option String)) :
    List (String × Option String) :=
  updates.foldl (fun acc e => setProp acc e.fst e.snd) props

/-- The HubSpot side's observable state: the companies that exist, and a
counter for minting ids of newly created companies. -/
structure HubState where
  companies : List HubCompany
  nextId : Nat
deriving DecidableEq, Repr

/-- `get_object` on a company id: found, or 404 (`none`). -/
def hubGet (h : HubState) (cid : String) : Option HubCompany :=
  h.companies.find? (fun c => c.id == cid)

/-- `search_objects` with a single EQ filter on one property, limit 1:
the first company whose property equals the value. -/
def hubSearchByProp (h : HubState) (p v : String) : Option HubCompany :=
  h.companies.find? (fun c => hubPropGet c p == some v)

/-- `update_object` (PATCH) on a company id. -/
def hubUpdate (h : HubState) (cid : String)
    (updates : List (String × Option String)) : HubState :=
  { h with companies := h.companies.map (fun c =>
      if c.id == cid then { c with props := mergeProps c.props updates } else c) }

/-- `create_object`: mint a fresh id and append the new company. -/
def hubCreate (h : HubState) (props : List (String × Option String)) :
    String × HubState :=
  let cid := "HS" ++ toString h.nextId
  (cid, { companies := h.companies ++ [⟨cid, props⟩], nextId := h.nextId + 1 })

/-- A call issued to the HubSpot (System-B) gateway. -/
inductive HubCall
  | getObject (objectType objectId : String)
  | searchObjects (objectType propName value : String)
  | createObject (objectType : String) (props : List (String × Option String))
  | updateObject (objectType objectId : String)
      (props : List (String × Option String))
deriving DecidableEq, Repr

/-- Whether a gateway call is a create or update (a write). -/
def HubCall.isWrite : HubCall → Bool
  | .createObject _ _ => true
  | .updateObject _ _ _ => true
  | _ => false

/-- Whether a call writes the given value into the "name" property. -/
def callWritesName (n : String) : HubCall → Bool
  | .createObject _ props =>
      props.any (fun e => e.fst == "name" && e.snd == some n)
  | .updateObject _ _ props =>
      props.any (fun e => e.fst == "name" && e.snd == some n)
  | _ => false

/-! ## The A→B companies directional pass -/

/-- The engine's configuration slice used by the company passes:
HubSpot property names (`hp_company_props`), Wrike custom-field ids
(`w_company_cf`) and the tier/priority translation tables
(src/sync_engine.py:759-765). -/
structure EngineCfg where
  hpName : String
  hpStatus : String
  hpAffinity : String
  hpPriority : String
  hpWrikeTaskId : String
  cfStatus : String
  cfAffinity : String
  cfTier : String
  tierToPriority : List (String × String)
  priorityToTier : List (String × String)
deriving Repr

/-- A Wrike task as the sync reads it: id, title, custom fields. -/
structure WrikeTask where
  id : String
  title : String
  customFields : List CustomField
deriving DecidableEq, Repr

/-- What happened to one task, mirroring `sync_detail["action"]`
in src/sync_engine.py (`"updated"`, `"matched_by_wrike_id"`,
`"created"`) plus the two skip paths. -/
inductive TaskAction
  | notAdminCard
  | emptyName
  | updated (hubspotId : String)
  | matchedByWrikeId (hubspotId : String)
  | created (hubspotId : String)
deriving DecidableEq, Repr

/-- The counters of one directional pass result dict. -/
structure PassResults where
  processed : Nat
  created : Nat
  updated : Nat
  failed : Nat
deriving DecidableEq, Repr

/-- All-zero counters. -/
def PassResults.zero : PassResults := ⟨0, 0, 0, 0⟩

/-- Output of processing one task: new store state, new HubSpot state,
updated counters, the gateway calls issued for this task, and the
action taken. -/
structure StepOut where
  db : SyncDb
  hub : HubState
  res : PassResults
  calls : List HubCall
  action : TaskAction
deriving Repr

/-- The search-then-create tail shared by the resolution order
(src/sync_engine.py:1202-1260): search companies by the Wrike-id
cross-reference property; on a hit adopt that id and update, otherwise
create with the cross-reference set; in both cases upsert the Identity
Map row. -/
def searchOrCreate (cfg : EngineCfg) (now : Nat) (db : SyncDb) (hub : HubState)
    (res : PassResults) (wrike_task_id company_name : String)
    (company_props : List (String × Option String))
    (callsBefore : List HubCall) : StepOut :=
  let searchCall := HubCall.searchObjects "companies" cfg.hpWrikeTaskId wrike_task_id
  match hubSearchByProp hub cfg.hpWrikeTaskId wrike_task_id with
  | some c =>
    let hub := hubUpdate hub c.id company_props
    let res := { res with updated := res.updated + 1 }
    let db := upsert_company_mapping db now wrike_task_id c.id company_name
    ⟨db, hub, res,
      callsBefore ++ [searchCall, .updateObject "companies" c.id company_props],
      .matchedByWrikeId c.id⟩
  | none =>
    let created := hubCreate hub company_props
    let res := { res with created := res.created + 1 }
    let db := upsert_company_mapping db now wrike_task_id created.fst company_name
    ⟨db, created.snd, res,
      callsBefore ++ [searchCall, .createObject "companies" company_props],
      .created created.fst⟩

/-- The `company_props` payload of the A→B company pass
(src/sync_engine.py:1144-1152): cleaned name, the three custom-field
values with tier translated to priority (raw passthrough when the table
has no entry), and the Wrike id always stamped into the cross-reference
property. -/
def companyProps (cfg : EngineCfg) (task : WrikeTask) :
    List (String × Option String) :=
  let account_status := wrike_cf_get task.customFields cfg.cfStatus
  let affinity_score := wrike_cf_get task.customFields cfg.cfAffinity
  let account_tier := wrike_cf_get task.customFields cfg.cfTier
  let account_priority :=
    account_tier.map (fun t => pyDictGet cfg.tierToPriority t t)
  [(cfg.hpName, some (clean_company_name_for_hubspot (safe_str (some task.title)))),
   (cfg.hpStatus, account_status),
   (cfg.hpAffinity, affinity_score),
   (cfg.hpPriority, account_priority),
   (cfg.hpWrikeTaskId, some (safe_str (some task.id)))]

/-- The per-task body of `sync_wrike_to_hubspot_companies`
(src/sync_engine.py:1110-1291): skip titles not containing "AdminCard";
count the task as processed; derive the cleaned name (skip if empty);
build the property payload; then resolve by Identity Map lookup (404 on
the cached id clears it and falls through) and finally by
search-or-create, upserting the Identity Map only on the
search-or-create path. -/
def processWrikeCompanyTask (cfg : EngineCfg) (now : Nat) (db : SyncDb)
    (hub : HubState) (res : PassResults) (task : WrikeTask) : StepOut :=
  let wrike_task_id := safe_str (some task.id)
  let wrike_task_title := safe_str (some task.title)
  if pyContains wrike_task_title "AdminCard" then
    let res := { res with processed := res.processed + 1 }
    let hubspot_company_id := get_hubspot_company_id db wrike_task_id
    let company_name := clean_company_name_for_hubspot wrike_task_title
    if company_name = "" then ⟨db, hub, res, [], .emptyName⟩
    else
      let company_props := companyProps cfg task
      match hubspot_company_id with
      | some hid =>
        match hubGet hub hid with
        | some _ =>
          let hub := hubUpdate hub hid company_props
          let res := { res with updated := res.updated + 1 }
          ⟨db, hub, res,
            [.getObject "companies" hid, .updateObject "companies" hid company_props],
            .updated hid⟩
        | none =>
          searchOrCreate cfg now db hub res wrike_task_id company_name
            company_props [.getObject "companies" hid]
      | none =>
        searchOrCreate cfg now db hub res wrike_task_id company_name
          company_props []
  else ⟨db, hub, res, [], .notAdminCard⟩

/-- `sync_wrike_to_hubspot_companies` over the tasks of the window
(src/sync_engine.py:1097-1295): fold the per-task body, then advance the
watermark `wrike_to_hubspot_last_run` to the end of the window. -/
def sync_wrike_to_hubspot_companies (cfg : EngineCfg) (now : Nat)
    (db : SyncDb) (hub : HubState) (tasks : List WrikeTask) :
    SyncDb × HubState × PassResults × List HubCall :=
  let folded := tasks.foldl (fun acc task =>
      let out := processWrikeCompanyTask cfg now acc.1 acc.2.1 acc.2.2.1 task
      (out.db, out.hub, out.res, acc.2.2.2 ++ out.calls))
    (db, hub, PassResults.zero, ([] : List HubCall))
  (set_state folded.1 "wrike_to_hubspot_last_run" (toString now),
    folded.2.1, folded.2.2.1, folded.2.2.2)

/-- Result of the event-driven single-record path, mirroring the result
dict of `_sync_single_wrike_company`. -/
inductive SingleResult
  | taskNotFound
  | skippedNotAdminCard
  | synced (action : TaskAction)
deriving DecidableEq, Repr

/-- `_sync_single_wrike_company` (src/sync_engine.py:2068-2152): fetch
the task from Wrike, skip when the title does not contain "AdminCard",
otherwise update via the cached mapping (an attempted update that 404s
clears the id), then search-or-create; the Identity Map is upserted only
in the search-or-create branch.  Unlike the batch pass there is no
empty-name skip and no preliminary get before the update. -/
def sync_single_wrike_company (cfg : EngineCfg) (now : Nat) (db : SyncDb)
    (hub : HubState) (wrikeTasks : List WrikeTask) (taskId : String) :
    SyncDb × HubState × List HubCall × SingleResult :=
  match wrikeTasks.find? (fun t => t.id == taskId) with
  | none => (db, hub, [], .taskNotFound)
  | some task =>
    let task_title := safe_str (some task.title)
    if pyContains task_title "AdminCard" then
      let company_name := clean_company_name_for_hubspot task_title
      let account_status := wrike_cf_get task.customFields cfg.cfStatus
      let affinity_score := wrike_cf_get task.customFields cfg.cfAffinity
      let account_tier := wrike_cf_get task.customFields cfg.cfTier
      let account_priority :=
        account_tier.map (fun t => pyDictGet cfg.tierToPriority t t)
      let company_props : List (String × Option String) :=
        [(cfg.hpName, some company_name),
         (cfg.hpStatus, account_status),
         (cfg.hpAffinity, affinity_score),
         (cfg.hpPriority, account_priority),
         (cfg.hpWrikeTaskId, some taskId)]
      match get_hubspot_company_id db taskId with
      | some hid =>
        match hubGet hub hid with
        | some _ =>
          let hub := hubUpdate hub hid company_props
          (db, hub, [.updateObject "companies" hid company_props],
            .synced (.updated hid))
        | none =>
          let out := searchOrCreate cfg now db hub PassResults.zero taskId
            company_name company_props [.updateObject "companies" hid company_props]
          (out.db, out.hub, out.calls, .synced out.action)
      | none =>
        let out := searchOrCreate cfg now db hub PassResults.zero taskId
          company_name company_props []
        (out.db, out.hub, out.calls, .synced out.action)
    else (db, hub, [], .skippedNotAdminCard)

/-! ## Watermark window start times -/

/-- `sync_wrike_to_hubspot_companies` window start
(src/sync_engine.py:1100-1103): the stored watermark, or now minus
7 days on first run. -/
def wrikeToHubspotCompaniesStartTime (last : Option Int) (now : Int) : Int :=
  match last with
  | some t => t
  | none => now - 7 * 86400

/-- `sync_wrike_to_hubspot_contacts` window start
(src/sync_engine.py:1300-1303): 7-day first-run lookback. -/
def wrikeToHubspotContactsStartTime (last : Option Int) (now : Int) : Int :=
  match last with
  | some t => t
  | none => now - 7 * 86400

/-- `sync_hubspot_to_wrike_companies` window start
(src/sync_engine.py:1415-1418): `timedelta(days=1)` on first run. -/
def hubspotToWrikeCompaniesStartTime (last : Option Int) (now : Int) : Int :=
  match last with
  | some t => t
  | none => now - 86400

/-- `sync_hubspot_to_wrike_contacts` window start
(src/sync_engine.py:1466-1469): `timedelta(days=1)` on first run. -/
def hubspotToWrikeContactsStartTime (last : Option Int) (now : Int) : Int :=
  match last with
  | some t => t
  | none => now - 86400

/-- `detect_wrike_changes` window start (src/sync_engine.py:1881-1890):
an explicit `since` wins, else the stored state, else one hour back. -/
def detectWrikeChangesStartTime (since last : Option Int) (now : Int) : Int :=
  match since with
  | some s => s
  | none =>
    match last with
    | some t => t
    | none => now - 3600

/-- `detect_hubspot_changes` window start (src/sync_engine.py:1936-1945):
same three-way branch with a one-hour first-run lookback. -/
def detectHubspotChangesStartTime (since last : Option Int) (now : Int) : Int :=
  match since with
  | some s => s
  | none =>
    match last with
    | some t => t
    | none => now - 3600

/-! ## The sync-cycle orchestrator -/

/-- One row of `sync_activities` as far as the claims need it. -/
structure Activity where
  id : Nat
  status : String
deriving DecidableEq, Repr

/-- Return value of `sync_once`: the skipped marker, a completed result
with the companies-pass counters, or a propagated exception. -/
inductive SyncOnceResult
  | skipped
  | completed (companies : PassResults)
  | failedErr (msg : String)
deriving DecidableEq, Repr

/-- Environment of one cycle: the Wrike tasks the window yields, and
whether some sub-step after the first pass raises (with its message).
The five sub-steps after the companies pass are abstracted to this
single environment-supplied exception outcome; the claims settled here
concern only the lock/activity/exception skeleton and the first pass. -/
structure OrchEnv where
  tasks : List WrikeTask
  laterStepError : Option String

/-- Global state of the orchestrator process: the module-level lock and
`_sync_in_progress` flag (src/sync_engine.py:27-28), the persistent
store, the HubSpot remote state, the activities table and its id
counter, and the clock. -/
structure OrchState where
  lockHeld : Bool
  inProgress : Bool
  db : SyncDb
  hub : HubState
  activities : List Activity
  nextActivityId : Nat
  now : Nat
deriving Repr

/-- Set the status of one activity row (`complete_activity` /
`fail_activity`, src/database.py:474-494). -/
def markActivity (acts : List Activity) (aid : Nat) (st : String) :
    List Activity :=
  acts.map (fun a => if a.id == aid then { a with status := st } else a)

/-- `EnhancedSyncEngine.sync_once` (src/sync_engine.py:948-1095): the
non-blocking lock acquisition returns a skipped result untouched when
the lock is already held; otherwise the in-progress flag is set, an
Activity row is opened with status running, the companies A→B pass runs,
and the remaining sub-steps are abstracted by `env.laterStepError` — an
exception marks the Activity failed and re-raises, normal completion
marks it completed; the `finally` block releases the lock and clears the
flag on both of those paths. -/
def sync_once (cfg : EngineCfg) (env : OrchEnv) (s : OrchState) :
    SyncOnceResult × OrchState × List HubCall :=
  if s.lockHeld then (.skipped, s, [])
  else
    let s1 := { s with lockHeld := true, inProgress := true }
    let aid := s1.nextActivityId
    let s2 := { s1 with
      activities := s1.activities ++ [Activity.mk aid "running"],
      nextActivityId := aid + 1 }
    let pass := sync_wrike_to_hubspot_companies cfg s2.now s2.db s2.hub env.tasks
    let s3 := { s2 with db := pass.1, hub := pass.2.1 }
    match env.laterStepError with
    | some msg =>
      let s4 := { s3 with activities := markActivity s3.activities aid "failed" }
      (.failedErr msg,
        { s4 with lockHeld := false, inProgress := false }, pass.2.2.2)
    | none =>
      let s4 := { s3 with activities := markActivity s3.activities aid "completed" }
      (.completed pass.2.2.1,
        { s4 with lockHeld := false, inProgress := false }, pass.2.2.2)

/-! ## Concrete instances used by witnesses and counterexamples -/

/-- Modelled from the spec: the tier-to-priority value-translation table
is part of the deployment configuration (config.yaml), which is not in
src/; spec section 3 describes it as "a configured bijective-ish table"
and the verification routine (src/sync_engine.py:820-822) requires the
keys "Tier 1", "Tier 2", "Tier 3". -/
def specTierToPriority : List (String × String) :=
  [("Tier 1", "High"), ("Tier 2", "Medium"), ("Tier 3", "Low")]

/-- Modelled from the spec: the inverse priority-to-tier table of the
same configuration. -/
def specPriorityToTier : List (String × String) :=
  [("High", "Tier 1"), ("Medium", "Tier 2"), ("Low", "Tier 3")]

/-- A concrete engine configuration with standard HubSpot property
names, placeholder Wrike custom-field ids, and the spec-modelled tier
tables. -/
def defaultCfg : EngineCfg :=
  ⟨"name", "account_status", "affinity_score", "account_priority",
   "wrike_task_id", "CFST", "CFAF", "CFTR",
   specTierToPriority, specPriorityToTier⟩

/-- The empty store. -/
def dbEmpty : SyncDb := ⟨[], []⟩

/-- The empty HubSpot state. -/
def hubEmpty : HubState := ⟨[], 0⟩

/-! ## Helper lemmas -/

/-- A list whose members all fail the predicate has no `find?` result. -/
theorem find?_none_of_all_false {α} (p : α → Bool) (l : List α)
    (h : ∀ x ∈ l, p x = false) : l.find? p = none :=
  List.find?_eq_none.mpr (fun x hx => by simp [h x hx])

/-- `find?` skips a first chunk in which it finds nothing. -/
theorem find?_append_of_none {α} (p : α → Bool) (l1 l2 : List α)
    (h : l1.find? p = none) : (l1 ++ l2).find? p = l2.find? p := by
  rw [List.find?_append, h, Option.none_or]

/-- Core of the upsert conflict branch: once some row carries the Wrike
id, the rewritten list's first active row for that id carries the new
HubSpot id. -/
theorem find?_map_upd (now : Nat) (w h n : String) (l : List IdRow)
    (hl : l.any (fun r => r.wrike_company_id == w) = true) :
    ((l.map (fun r => if r.wrike_company_id == w then
        { r with hubspot_company_id := h, company_name := n,
                 sync_status := "active", last_synced := now } else r)).find?
      (fun r => r.wrike_company_id == w && r.sync_status == "active")).map
      (fun r => r.hubspot_company_id) = some h := by
  induction l with
  | nil => simp at hl
  | cons a t ih =>
    by_cases ha : (a.wrike_company_id == w) = true
    · simp only [List.map_cons, if_pos ha]
      rw [List.find?_cons_of_pos]
      · rfl
      · simp [ha]
    · simp only [List.map_cons, if_neg ha]
      rw [List.find?_cons_of_neg]
      · apply ih
        simp only [List.any_cons, ha, Bool.false_or] at hl
        exact hl
      · simp [ha]

/-- After an upsert, the active-row lookup by the upserted Wrike id
yields the upserted HubSpot id. -/
theorem get_hubspot_after_upsert (db : SyncDb) (now : Nat) (w h n : String) :
    get_hubspot_company_id (upsert_company_mapping db now w h n) w = some h := by
  unfold upsert_company_mapping get_hubspot_company_id
  by_cases hany : db.company_id_map.any (fun r => r.wrike_company_id == w) = true
  · rw [if_pos hany]
    exact find?_map_upd now w h n db.company_id_map hany
  · rw [if_neg hany]
    have hnone : db.company_id_map.find?
        (fun r => r.wrike_company_id == w && r.sync_status == "active") = none := by
      apply find?_none_of_all_false
      intro r hr
      have : (r.wrike_company_id == w) = false := by
        by_contra hc
        exact hany (List.any_eq_true.mpr ⟨r, hr, by
          cases hb : (r.wrike_company_id == w) with
          | true => rfl
          | false => exact absurd hb hc⟩)
      simp [this]
    rw [find?_append_of_none _ _ _ hnone]
    rw [List.find?_cons_of_pos]
    · rfl
    · simp

/-- A HubSpot state containing a company with the given id never
answers 404 for it. -/
theorem hubGet_ne_none_of_mem (hs : HubState) (cid : String)
    (h : ∃ c ∈ hs.companies, c.id = cid) : hubGet hs cid ≠ none := by
  obtain ⟨c, hc, hid⟩ := h
  unfold hubGet
  intro hnone
  rw [List.find?_eq_none] at hnone
  exact (hnone c hc) (by simp [hid])

/-- `hubUpdate` never deletes a company: every id present before is
present after. -/
theorem hubUpdate_mem (hs : HubState) (cid : String)
    (updates : List (String × Option String)) (c : HubCompany)
    (hc : c ∈ hs.companies) :
    ∃ c2 ∈ (hubUpdate hs cid updates).companies, c2.id = c.id := by
  unfold hubUpdate
  by_cases h : (c.id == cid) = true
  · exact ⟨{ c with props := mergeProps c.props updates },
      by
        have := List.mem_map_of_mem
          (fun x => if x.id == cid then { x with props := mergeProps x.props updates } else x) hc
        simpa [h] using this, rfl⟩
  · exact ⟨c,
      by
        have := List.mem_map_of_mem
          (fun x => if x.id == cid then { x with props := mergeProps x.props updates } else x) hc
        simpa [h] using this, rfl⟩

/-- Against a non-429 4xx response, the HubSpot retry loop terminates on
the attempt that received it. -/
theorem hubspotRetryAux_client_error (resp : Nat → HttpAttempt)
    (attempt fuel code : Nat) (hresp : resp attempt = .status code)
    (h4 : 400 ≤ code) (h5 : code < 500) (h429 : code ≠ 429) :
    hubspotRetryAux resp attempt (fuel + 1) = .httpError code (attempt + 1) := by
  simp [hubspotRetryAux, hresp, h429, h4, h5]

/-- Against a steady non-429 4xx response, the Wrike retry loop keeps
retrying and only propagates the error after its last attempt. -/
theorem wrikeRetryAux_client_error (code : Nat)
    (h4 : 400 ≤ code) (h5 : code < 500) (h429 : code ≠ 429) :
    ∀ fuel attempt, wrikeRetryAux (fun _ => .status code) attempt (fuel + 1) =
      .httpError code (attempt + fuel + 1) := by
  intro fuel
  induction fuel with
  | zero =>
    intro attempt
    simp [wrikeRetryAux, h429, h4]
  | succ f ih =>
    intro attempt
    have h5x : ¬ 500 ≤ code := by omega
    have hstep : wrikeRetryAux (fun _ => .status code) attempt (f + 1 + 1) =
        wrikeRetryAux (fun _ => .status code) (attempt + 1) (f + 1) := by
      simp [wrikeRetryAux, h429, h4, h5x]
    rw [hstep, ih (attempt + 1)]
    congr 1
    omega

/-! ## Claim theorems -/

/-- C1 counterexample: the task title "Acme AdminCard" lacks the marker
prefix (the title does not start with "AdminCard"), yet the A→B company
sync processes it — the containment test of src/sync_engine.py:1115 is
satisfied — and issues a create call to the HubSpot gateway on its
behalf.  This refutes the claim that every task whose title lacks the
marker prefix is skipped before any target-system interaction. -/
theorem c1_counterexample :
    strStartsWith "Acme AdminCard" "AdminCard" = false ∧
    ((processWrikeCompanyTask defaultCfg 100 dbEmpty hubEmpty PassResults.zero
        ⟨"T1", "Acme AdminCard", []⟩).calls.any HubCall.isWrite) = true := by
  decide

/-- C1 (amended): for every Wrike task whose title does not contain the
marker string "AdminCard" anywhere, neither the batch A→B company pass
nor the single-record A→B path issues any HubSpot gateway call on its
behalf — the task is skipped with store, remote state and counters
untouched. -/
theorem c1_theorem (cfg : EngineCfg) (now : Nat) (db : SyncDb)
    (hub : HubState) (res : PassResults) (task : WrikeTask)
    (h : pyContains (safe_str (some task.title)) "AdminCard" = false) :
    processWrikeCompanyTask cfg now db hub res task =
      ⟨db, hub, res, [], .notAdminCard⟩ ∧
    sync_single_wrike_company cfg now db hub [task] task.id =
      (db, hub, [], .skippedNotAdminCard) := by
  constructor
  · simp [processWrikeCompanyTask, h]
  · simp [sync_single_wrike_company, List.find?, h]

/-- C1 witness: the amended theorem evaluated on a plain sibling task. -/
theorem c1_witness :
    processWrikeCompanyTask defaultCfg 5 dbEmpty hubEmpty PassResults.zero
      ⟨"T9", "Org Sibling Task", []⟩ =
      ⟨dbEmpty, hubEmpty, PassResults.zero, [], .notAdminCard⟩ ∧
    sync_single_wrike_company defaultCfg 5 dbEmpty hubEmpty
      [⟨"T9", "Org Sibling Task", []⟩] "T9" =
      (dbEmpty, hubEmpty, [], .skippedNotAdminCard) :=
  c1_theorem defaultCfg 5 dbEmpty hubEmpty PassResults.zero
    ⟨"T9", "Org Sibling Task", []⟩ (by decide)

/-- C2 counterexample: a constant 404 response is propagated by the
HubSpot client after a single attempt, but the Wrike client — whose
generic RequestException handler catches the error raised by
raise_for_status — issues all ten attempts before propagating it.  This
refutes the claim that both gateways propagate non-429 4xx responses
with zero retry attempts. -/
theorem c2_counterexample :
    hubspot_request_with_retry (fun _ => .status 404) = .httpError 404 1 ∧
    wrike_request_with_retry (fun _ => .status 404) = .httpError 404 10 := by
  decide

/-- C2 (amended): the HubSpot gateway propagates any 4xx response other
than 429 immediately, with exactly one attempt issued; the Wrike
gateway instead retries such responses like transient errors and only
propagates the error after exhausting all ten attempts. -/
theorem c2_theorem :
    (∀ (resp : Nat → HttpAttempt) (code : Nat),
        resp 0 = .status code → 400 ≤ code → code < 500 → code ≠ 429 →
        hubspot_request_with_retry resp = .httpError code 1) ∧
    (∀ code : Nat, 400 ≤ code → code < 500 → code ≠ 429 →
        wrike_request_with_retry (fun _ => .status code) =
          .httpError code 10) := by
  constructor
  · intro resp code hresp h4 h5 h429
    exact hubspotRetryAux_client_error resp 0 9 code hresp h4 h5 h429
  · intro code h4 h5 h429
    exact wrikeRetryAux_client_error code h4 h5 h429 9 0

/-- C2 witness: the amended theorem evaluated at a 403 response. -/
theorem c2_witness :
    hubspot_request_with_retry (fun _ => .status 403) = .httpError 403 1 ∧
    wrike_request_with_retry (fun _ => .status 403) = .httpError 403 10 :=
  ⟨c2_theorem.1 (fun _ => .status 403) 403 rfl (by decide) (by decide) (by decide),
   c2_theorem.2 403 (by decide) (by decide) (by decide)⟩

/-- C3: evaluating the name-cleaning path at the failing input
"AdminCard_AdminCard_Acme": the routine strips only one leading marker
variant, so the display name written to HubSpot is "AdminCard_Acme",
which still starts with the marker variant "AdminCard_" — contradicting
both the claim and the function's own documentation that the marker must
never appear in HubSpot.  The third conjunct shows the A→B pass indeed
issues a gateway write carrying that name. -/
theorem c3_theorem :
    clean_company_name_for_hubspot "AdminCard_AdminCard_Acme" = "AdminCard_Acme" ∧
    strStartsWith "AdminCard_Acme" "AdminCard_" = true ∧
    ((processWrikeCompanyTask defaultCfg 100 dbEmpty hubEmpty PassResults.zero
        ⟨"T2", "AdminCard_AdminCard_Acme", []⟩).calls.any
        (callWritesName "AdminCard_Acme")) = true := by
  decide

/-- C4: for any configuration whose priority-to-tier table inverts the
tier-to-priority table (the "bijective-ish" relation the spec requires
of the configured tables), translating any configured tier to a
priority and back is the identity; and for any value with no entry in
the tier-to-priority table the translation is the raw passthrough, as
implemented by `tbl.get(v, v)` in src/sync_engine.py:1134. -/
theorem c4_theorem (ttp ptt : List (String × String))
    (hinv : ∀ e ∈ ttp, lookupStr ptt e.snd = some e.fst) :
    (∀ t ∈ ttp.map Prod.fst,
      pyDictGet ptt (pyDictGet ttp t t) (pyDictGet ttp t t) = t) ∧
    (∀ v, lookupStr ttp v = none → pyDictGet ttp v v = v) := by
  constructor
  · intro t ht
    obtain ⟨e, he, hfst⟩ := List.mem_map.mp ht
    have hsome : ∃ e2, ttp.find? (fun x => x.fst == t) = some e2 := by
      cases hfind : ttp.find? (fun x => x.fst == t) with
      | some e2 => exact ⟨e2, rfl⟩
      | none =>
        rw [List.find?_eq_none] at hfind
        exact absurd (by simp [hfst]) (hfind e he)
    obtain ⟨e2, hfind⟩ := hsome
    have he2mem : e2 ∈ ttp := List.mem_of_find?_eq_some hfind
    have he2fst : e2.fst = t := by
      have := List.find?_some hfind
      exact eq_of_beq this
    have hlook : lookupStr ttp t = some e2.snd := by
      unfold lookupStr
      rw [hfind]
      rfl
    have hget : pyDictGet ttp t t = e2.snd := by
      unfold pyDictGet
      rw [hlook]
      rfl
    rw [hget]
    have hback := hinv e2 he2mem
    unfold pyDictGet
    rw [hback, he2fst]
    rfl
  · intro v hv
    unfold pyDictGet
    rw [hv]
    rfl

/-- C4 witness: the round trip and the passthrough evaluated on the
spec-modelled configuration tables. -/
theorem c4_witness :
    pyDictGet specPriorityToTier (pyDictGet specTierToPriority "Tier 2" "Tier 2")
      (pyDictGet specTierToPriority "Tier 2" "Tier 2") = "Tier 2" ∧
    pyDictGet specTierToPriority "Unmapped" "Unmapped" = "Unmapped" := by
  have h := c4_theorem specTierToPriority specPriorityToTier (by decide)
  exact ⟨h.1 "Tier 2" (by decide), h.2 "Unmapped" (by decide)⟩

/-- Scenario family for the second-run claim: one marker-prefixed Wrike
company task carrying an account-status custom field. -/
def c5Task : WrikeTask := ⟨"T1", "AdminCard_Acme", [⟨"CFST", some "Active"⟩]⟩

/-- First A→B companies pass, at time 100, from empty states. -/
def c5Run1 : SyncDb × HubState × PassResults × List HubCall :=
  sync_wrike_to_hubspot_companies defaultCfg 100 dbEmpty hubEmpty [c5Task]

/-- Second A→B companies pass, at time 200, with no source changes. -/
def c5Run2 : SyncDb × HubState × PassResults × List HubCall :=
  sync_wrike_to_hubspot_companies defaultCfg 200 c5Run1.1 c5Run1.2.1 [c5Task]

/-- C5 counterexample: on the second run over the unchanged record the
counts are processed=1, created=0, updated=1 as claimed, but the
Identity Map row still carries last_synced = 100 — the time of the
first run, not the second run's time 200.  The mapped-update path of
src/sync_engine.py:1195-1200 never calls upsert_company_mapping (that
call sits inside the search-or-create branch at line 1259-1260), so the
last-synced timestamp does not advance, refuting the claim. -/
theorem c5_counterexample :
    c5Run2.2.2.1 = ⟨1, 0, 1, 0⟩ ∧
    c5Run2.1.company_id_map = [⟨"T1", "HS0", "Acme", "active", 100⟩] ∧
    (100 : Nat) ≠ 200 := by
  refine ⟨by decide, by decide, by decide⟩

/-- C5 (amended): the second A→B companies run over the same window
with no source changes yields processed=1, created=0, updated=1 (an
update is still issued, with no no-diff special case), and the Identity
Map rows are left exactly as the first run wrote them — the mapped
HubSpot id and name stay constant and the last-synced timestamp is
untouched. -/
theorem c5_theorem :
    c5Run2.2.2.1 = ⟨1, 0, 1, 0⟩ ∧
    c5Run2.1.company_id_map = c5Run1.1.company_id_map := by
  refine ⟨by decide, by decide⟩

/-- Reduction of the per-task body on the stale-mapping path: the title
is marked, the cleaned name nonempty, the Identity Map supplies a cached
id, and the fetch of that id answers 404. -/
theorem processWrikeCompanyTask_stale (cfg : EngineCfg) (now : Nat)
    (db : SyncDb) (hub : HubState) (task : WrikeTask) (hid : String)
    (hmark : pyContains (safe_str (some task.title)) "AdminCard" = true)
    (hname : clean_company_name_for_hubspot (safe_str (some task.title)) ≠ "")
    (hmap : get_hubspot_company_id db (safe_str (some task.id)) = some hid)
    (h404 : hubGet hub hid = none) :
    processWrikeCompanyTask cfg now db hub PassResults.zero task =
      searchOrCreate cfg now db hub ⟨1, 0, 0, 0⟩ (safe_str (some task.id))
        (clean_company_name_for_hubspot (safe_str (some task.title)))
        (companyProps cfg task) [.getObject "companies" hid] := by
  simp [processWrikeCompanyTask, hmark, hname, hmap, h404, PassResults.zero]

/-- Reduction of the per-task body on the unlinked path: no active
Identity Map row, so resolution starts directly at search-or-create. -/
theorem processWrikeCompanyTask_unmapped (cfg : EngineCfg) (now : Nat)
    (db : SyncDb) (hub : HubState) (task : WrikeTask)
    (hmark : pyContains (safe_str (some task.title)) "AdminCard" = true)
    (hname : clean_company_name_for_hubspot (safe_str (some task.title)) ≠ "")
    (hmap : get_hubspot_company_id db (safe_str (some task.id)) = none) :
    processWrikeCompanyTask cfg now db hub PassResults.zero task =
      searchOrCreate cfg now db hub ⟨1, 0, 0, 0⟩ (safe_str (some task.id))
        (clean_company_name_for_hubspot (safe_str (some task.title)))
        (companyProps cfg task) [] := by
  simp [processWrikeCompanyTask, hmark, hname, hmap, PassResults.zero]

/-- What search-or-create guarantees: afterwards the Identity Map's
active lookup of the Wrike id yields some HubSpot id that exists in the
remote state, the action is matched-by-Wrike-id or created, the failure
counter is untouched, and the first gateway call after the prefix is
the search by the cross-reference property. -/
theorem searchOrCreate_spec (cfg : EngineCfg) (now : Nat) (db : SyncDb)
    (hub : HubState) (res : PassResults) (w n : String)
    (props : List (String × Option String)) (callsBefore : List HubCall) :
    ∃ hid2,
      get_hubspot_company_id
        (searchOrCreate cfg now db hub res w n props callsBefore).db w = some hid2 ∧
      hubGet (searchOrCreate cfg now db hub res w n props callsBefore).hub hid2 ≠ none ∧
      ((searchOrCreate cfg now db hub res w n props callsBefore).action =
          .matchedByWrikeId hid2 ∨
        (searchOrCreate cfg now db hub res w n props callsBefore).action =
          .created hid2) ∧
      (searchOrCreate cfg now db hub res w n props callsBefore).res.failed =
        res.failed ∧
      ∃ rest, (searchOrCreate cfg now db hub res w n props callsBefore).calls =
        callsBefore ++ (HubCall.searchObjects "companies" cfg.hpWrikeTaskId w :: rest) := by
  cases hsearch : hubSearchByProp hub cfg.hpWrikeTaskId w with
  | some c =>
    refine ⟨c.id, ?_, ?_, ?_, ?_, ?_⟩
    · simp [searchOrCreate, hsearch, get_hubspot_after_upsert]
    · have hc : c ∈ hub.companies :=
        List.mem_of_find?_eq_some (by simpa [hubSearchByProp] using hsearch)
      have hmem := hubUpdate_mem hub c.id props c hc
      simpa [searchOrCreate, hsearch] using
        hubGet_ne_none_of_mem (hubUpdate hub c.id props) c.id hmem
    · left
      simp [searchOrCreate, hsearch]
    · simp [searchOrCreate, hsearch]
    · exact ⟨[.updateObject "companies" c.id props], by simp [searchOrCreate, hsearch]⟩
  | none =>
    refine ⟨"HS" ++ toString hub.nextId, ?_, ?_, ?_, ?_, ?_⟩
    · simp [searchOrCreate, hsearch, hubCreate, get_hubspot_after_upsert]
    · have hmem : ∃ c2 ∈ (hubCreate hub props).snd.companies,
          c2.id = "HS" ++ toString hub.nextId := by
        refine ⟨⟨"HS" ++ toString hub.nextId, props⟩, ?_, rfl⟩
        simp [hubCreate]
      simpa [searchOrCreate, hsearch, hubCreate] using
        hubGet_ne_none_of_mem (hubCreate hub props).snd
          ("HS" ++ toString hub.nextId) hmem
    · right
      simp [searchOrCreate, hsearch, hubCreate]
    · simp [searchOrCreate, hsearch]
    · exact ⟨[.createObject "companies" props], by simp [searchOrCreate, hsearch]⟩

/-- C6: when the Identity Map's cached HubSpot id answers 404 on fetch,
the A→B company pass for that record recovers: it finishes the record
without a failure (the stale id is cleared and the search-or-create
fallback runs, re-linking or creating), and afterwards the Identity Map
holds a HubSpot id that exists in the remote state. -/
theorem c6_theorem (cfg : EngineCfg) (now : Nat) (db : SyncDb)
    (hub : HubState) (task : WrikeTask) (hid : String)
    (hmark : pyContains (safe_str (some task.title)) "AdminCard" = true)
    (hname : clean_company_name_for_hubspot (safe_str (some task.title)) ≠ "")
    (hmap : get_hubspot_company_id db (safe_str (some task.id)) = some hid)
    (h404 : hubGet hub hid = none) :
    (processWrikeCompanyTask cfg now db hub PassResults.zero task).res.failed = 0 ∧
    ∃ hid2,
      get_hubspot_company_id
        (processWrikeCompanyTask cfg now db hub PassResults.zero task).db
        (safe_str (some task.id)) = some hid2 ∧
      hubGet (processWrikeCompanyTask cfg now db hub PassResults.zero task).hub
        hid2 ≠ none ∧
      ((processWrikeCompanyTask cfg now db hub PassResults.zero task).action =
          .matchedByWrikeId hid2 ∨
        (processWrikeCompanyTask cfg now db hub PassResults.zero task).action =
          .created hid2) := by
  rw [processWrikeCompanyTask_stale cfg now db hub task hid hmark hname hmap h404]
  obtain ⟨hid2, hget, hmem, hact, hfail, _⟩ :=
    searchOrCreate_spec cfg now db hub ⟨1, 0, 0, 0⟩ (safe_str (some task.id))
      (clean_company_name_for_hubspot (safe_str (some task.title)))
      (companyProps cfg task) [.getObject "companies" hid]
  exact ⟨hfail, hid2, hget, hmem, hact⟩

/-- The stale Identity Map scenario used as the C6 witness: an active
row points the Wrike task T1 at the HubSpot id HSdead, which does not
exist remotely. -/
def c6Db : SyncDb := ⟨[⟨"T1", "HSdead", "Acme", "active", 50⟩], []⟩

/-- The marker-prefixed Wrike task of the C6 witness scenario. -/
def c6Task : WrikeTask := ⟨"T1", "AdminCard_Acme", []⟩

/-- C6 witness: the recovery theorem evaluated on the concrete stale
scenario. -/
theorem c6_witness :
    (processWrikeCompanyTask defaultCfg 100 c6Db hubEmpty PassResults.zero
      c6Task).res.failed = 0 ∧
    ∃ hid2,
      get_hubspot_company_id
        (processWrikeCompanyTask defaultCfg 100 c6Db hubEmpty PassResults.zero
          c6Task).db (safe_str (some c6Task.id)) = some hid2 ∧
      hubGet (processWrikeCompanyTask defaultCfg 100 c6Db hubEmpty
        PassResults.zero c6Task).hub hid2 ≠ none ∧
      ((processWrikeCompanyTask defaultCfg 100 c6Db hubEmpty PassResults.zero
          c6Task).action = .matchedByWrikeId hid2 ∨
        (processWrikeCompanyTask defaultCfg 100 c6Db hubEmpty PassResults.zero
          c6Task).action = .created hid2) :=
  c6_theorem defaultCfg 100 c6Db hubEmpty c6Task "HSdead"
    (by decide) (by decide) (by decide) (by decide)

/-- C7: invoking the cycle entry point while another cycle holds the
sync lock returns the skipped result immediately with the whole state
untouched — no Activity row is opened, no database state changes, and
no gateway call is made. -/
theorem c7_theorem (cfg : EngineCfg) (env : OrchEnv) (s : OrchState)
    (h : s.lockHeld = true) :
    sync_once cfg env s = (.skipped, s, []) := by
  unfold sync_once
  rw [h]
  simp

/-- The locked orchestrator state of the C7 witness. -/
def c7State : OrchState := ⟨true, true, dbEmpty, hubEmpty, [], 0, 0⟩

/-- C7 witness: the mutual-exclusion theorem evaluated on a concrete
locked state. -/
theorem c7_witness :
    sync_once defaultCfg ⟨[], none⟩ c7State = (.skipped, c7State, []) :=
  c7_theorem defaultCfg ⟨[], none⟩ c7State rfl

/-- C8 counterexample: with no stored watermark, the B→A companies pass
starts its window one day back (src/sync_engine.py:1417,
`timedelta(days=1)`), not the claimed seven days that the A→B passes
use.  Evaluated at now = 0. -/
theorem c8_counterexample :
    hubspotToWrikeCompaniesStartTime none 0 = -86400 ∧
    wrikeToHubspotCompaniesStartTime none 0 = -604800 ∧
    ((-86400 : Int) ≠ -604800) := by
  refine ⟨rfl, rfl, by decide⟩

/-- C8 (amended): on first run (no watermark) the two A→B batch passes
use a 7-day lookback, the two B→A batch passes use a 1-day lookback,
and both event-driven change detectors use a one-hour lookback. -/
theorem c8_theorem (now : Int) :
    wrikeToHubspotCompaniesStartTime none now = now - 7 * 86400 ∧
    wrikeToHubspotContactsStartTime none now = now - 7 * 86400 ∧
    hubspotToWrikeCompaniesStartTime none now = now - 86400 ∧
    hubspotToWrikeContactsStartTime none now = now - 86400 ∧
    detectWrikeChangesStartTime none none now = now - 3600 ∧
    detectHubspotChangesStartTime none none now = now - 3600 :=
  ⟨rfl, rfl, rfl, rfl, rfl, rfl⟩

/-- C8 witness: the lookback windows evaluated at a concrete clock. -/
theorem c8_witness :
    wrikeToHubspotCompaniesStartTime none 1000000 = 1000000 - 7 * 86400 ∧
    wrikeToHubspotContactsStartTime none 1000000 = 1000000 - 7 * 86400 ∧
    hubspotToWrikeCompaniesStartTime none 1000000 = 1000000 - 86400 ∧
    hubspotToWrikeContactsStartTime none 1000000 = 1000000 - 86400 ∧
    detectWrikeChangesStartTime none none 1000000 = 1000000 - 3600 ∧
    detectHubspotChangesStartTime none none 1000000 = 1000000 - 3600 :=
  c8_theorem 1000000

/-- The orchestrator state of the C9 counterexample: the lock is held
and the in-progress flag set by a concurrently running cycle. -/
def c9State : OrchState := ⟨true, true, dbEmpty, hubEmpty, [], 0, 0⟩

/-- C9 counterexample: when sync_once terminates by returning the
skipped result, the sync lock is still held and the in-progress flag is
still True (they belong to the concurrently running cycle, which this
invocation neither acquired nor released).  This refutes the claim that
after every termination of sync_once — including a skipped return — the
in-progress flag is False and the lock is released. -/
theorem c9_counterexample :
    (sync_once defaultCfg ⟨[], none⟩ c9State).1 = .skipped ∧
    (sync_once defaultCfg ⟨[], none⟩ c9State).2.1.lockHeld = true ∧
    (sync_once defaultCfg ⟨[], none⟩ c9State).2.1.inProgress = true := by
  refine ⟨by decide, by decide, by decide⟩

/-- C9 (amended): whenever sync_once actually acquires the lock (it was
free on entry), every termination — normal completion or a propagated
exception from a sub-step — leaves the in-progress flag False and the
lock released, so an earlier failed cycle never permanently refuses a
later invocation; a skipped invocation leaves the lock state exactly as
it found it. -/
theorem c9_theorem (cfg : EngineCfg) (env : OrchEnv) (s : OrchState) :
    (s.lockHeld = false →
      (sync_once cfg env s).2.1.lockHeld = false ∧
      (sync_once cfg env s).2.1.inProgress = false) ∧
    (s.lockHeld = true → (sync_once cfg env s).2.1 = s) := by
  constructor
  · intro h
    unfold sync_once
    rw [h]
    cases henv : env.laterStepError <;> simp [henv]
  · intro h
    unfold sync_once
    rw [h]
    simp

/-- C9 witness: the amended theorem evaluated on a free-lock state with
a failing later sub-step — the lock is released even on the exception
path. -/
theorem c9_witness :
    (sync_once defaultCfg ⟨[], some "boom"⟩
      ⟨false, false, dbEmpty, hubEmpty, [], 0, 0⟩).2.1.lockHeld = false ∧
    (sync_once defaultCfg ⟨[], some "boom"⟩
      ⟨false, false, dbEmpty, hubEmpty, [], 0, 0⟩).2.1.inProgress = false :=
  (c9_theorem defaultCfg ⟨[], some "boom"⟩
    ⟨false, false, dbEmpty, hubEmpty, [], 0, 0⟩).1 rfl

/-- C10: if every Identity Map row carrying the given Wrike id (resp.
HubSpot id) is soft-disabled to 'inactive', the two lookups return
nothing — their SQL filters on sync_status = 'active' — and the A→B
pass treats such a record as unlinked: its action is never the
update-via-mapping one and its first gateway call is the
search-by-cross-reference fallback. -/
theorem c10_theorem (db : SyncDb) (w hubId : String)
    (h1 : ∀ r ∈ db.company_id_map,
      (r.wrike_company_id == w) = true → r.sync_status = "inactive")
    (h2 : ∀ r ∈ db.company_id_map,
      (r.hubspot_company_id == hubId) = true → r.sync_status = "inactive") :
    get_hubspot_company_id db w = none ∧
    get_wrike_company_id_by_hubspot db hubId = none ∧
    ∀ (cfg : EngineCfg) (now : Nat) (hub : HubState) (task : WrikeTask),
      safe_str (some task.id) = w →
      pyContains (safe_str (some task.title)) "AdminCard" = true →
      clean_company_name_for_hubspot (safe_str (some task.title)) ≠ "" →
      (∀ h, (processWrikeCompanyTask cfg now db hub PassResults.zero task).action ≠
        .updated h) ∧
      ∃ rest, (processWrikeCompanyTask cfg now db hub PassResults.zero task).calls =
        HubCall.searchObjects "companies" cfg.hpWrikeTaskId w :: rest := by
  have hinact : (("inactive" : String) == "active") = false := by decide
  have hget : get_hubspot_company_id db w = none := by
    have hall : ∀ r ∈ db.company_id_map,
        (r.wrike_company_id == w && r.sync_status == "active") = false := by
      intro r hr
      cases hw : (r.wrike_company_id == w) with
      | false => simp [hw]
      | true => simp [hw, h1 r hr hw, hinact]
    unfold get_hubspot_company_id
    rw [find?_none_of_all_false _ _ hall]
    rfl
  have hget2 : get_wrike_company_id_by_hubspot db hubId = none := by
    have hall : ∀ r ∈ db.company_id_map,
        (r.hubspot_company_id == hubId && r.sync_status == "active") = false := by
      intro r hr
      cases hh : (r.hubspot_company_id == hubId) with
      | false => simp [hh]
      | true => simp [hh, h2 r hr hh, hinact]
    unfold get_wrike_company_id_by_hubspot
    rw [find?_none_of_all_false _ _ hall]
    rfl
  refine ⟨hget, hget2, ?_⟩
  intro cfg now hub task hw hmark hname
  have hmap : get_hubspot_company_id db (safe_str (some task.id)) = none := by
    rw [hw]; exact hget
  rw [processWrikeCompanyTask_unmapped cfg now db hub task hmark hname hmap]
  obtain ⟨hid2, _, _, hact, _, rest, hcalls⟩ :=
    searchOrCreate_spec cfg now db hub ⟨1, 0, 0, 0⟩ (safe_str (some task.id))
      (clean_company_name_for_hubspot (safe_str (some task.title)))
      (companyProps cfg task) []
  constructor
  · intro h heq
    cases hact with
    | inl ha => rw [ha] at heq; exact TaskAction.noConfusion heq
    | inr ha => rw [ha] at heq; exact TaskAction.noConfusion heq
  · exact ⟨rest, by rw [hcalls, hw]; rfl⟩

/-- The soft-disabled Identity Map of the C10 witness: the only row for
T1 is inactive. -/
def c10Db : SyncDb := ⟨[⟨"T1", "HS9", "Acme", "inactive", 50⟩], []⟩

/-- C10 witness: the lookups return nothing for the inactive row and
the pass falls back to the search path, evaluated concretely. -/
theorem c10_witness :
    get_hubspot_company_id c10Db "T1" = none ∧
    get_wrike_company_id_by_hubspot c10Db "HS9" = none ∧
    ∃ rest,
      (processWrikeCompanyTask defaultCfg 7 c10Db hubEmpty PassResults.zero
        ⟨"T1", "AdminCard_Acme", []⟩).calls =
        HubCall.searchObjects "companies" "wrike_task_id" "T1" :: rest := by
  have h := c10_theorem c10Db "T1" "HS9" (by decide) (by decide)
  refine ⟨h.1, h.2.1, ?_⟩
  exact (h.2.2 defaultCfg 7 hubEmpty ⟨"T1", "AdminCard_Acme", []⟩
    (by decide) (by decide) (by decide)).2

end FalconHub
